import Mathlib

/-!
Verification of `src/rc/rc-update.c` (openrc's rc-update applet): command
resolution, argument validation, the add/delete mutation batch and the
show report, shallowly embedded over an abstract registry state.

The registry itself (librc: `rc_service_exists`, `rc_runlevel_exists`,
`rc_service_in_runlevel`, `rc_service_add`, `rc_service_delete`,
`rc_runlevel_get`, `rc_runlevel_list`, `rc_services_in_runlevel`) is an
external collaborator of this core; it is modelled from the spec's
Registry Client contract (spec §6).  Likewise the `einfo` reporting
family: `eerror`/`ewarn`/`einfo` print and return, `eerrorx` prints and
terminates the invocation with a nonzero status, and `ewarnx` prints a
summary warning that the spec describes as "informational, not a
failure".
-/

namespace RC

/-- Modelled from the spec: the Registry Client state (§6).  `services` is
the sequence returned by `allServicesInRunlevel(nil)`, `runlevels` the
sequence returned by `allRunlevels` (name existence = membership in it),
`members` the membership relation as (runlevel, service) pairs, `current`
the optional current runlevel, and `addFail`/`delFail` the pairs on which
the underlying add-membership / remove-membership I/O fails even though
the request is otherwise well-formed. -/
structure Registry where
  services : List String
  runlevels : List String
  members : List (String × String)
  current : Option String
  addFail : List (String × String)
  delFail : List (String × String)
deriving DecidableEq

/-- Modelled from the spec: `serviceExists(name) -> bool`. -/
def rc_service_exists (st : Registry) (service : String) : Bool :=
  st.services.contains service

/-- Modelled from the spec: `runlevelExists(name) -> bool`. -/
def rc_runlevel_exists (st : Registry) (runlevel : String) : Bool :=
  st.runlevels.contains runlevel

/-- Modelled from the spec: `isMember(service, runlevel) -> bool`
(the C side is `rc_service_in_runlevel (service, runlevel)`). -/
def rc_service_in_runlevel (st : Registry) (service runlevel : String) : Bool :=
  st.members.contains (runlevel, service)

/-- Modelled from the spec: `addMembership(runlevel, service) ->
success|failure(cause)`; `none` is an underlying I/O failure. -/
def rc_service_add (st : Registry) (runlevel service : String) : Option Registry :=
  if st.addFail.contains (runlevel, service) then none
  else some { st with members := (runlevel, service) :: st.members }

/-- Result of `removeMembership`: success with the new state, failure
because the pair was never a member (errno `ENOENT`), or any other
failure cause. -/
inductive DelResult
  | ok (st : Registry)
  | notAMember
  | otherFail
deriving DecidableEq

/-- Modelled from the spec: `removeMembership(runlevel, service) ->
success | failure(NotAMember) | failure(cause)`. -/
def rc_service_delete (st : Registry) (runlevel service : String) : DelResult :=
  if st.members.contains (runlevel, service) then
    if st.delFail.contains (runlevel, service) then DelResult.otherFail
    else DelResult.ok { st with members := st.members.erase (runlevel, service) }
  else DelResult.notAMember

/-- Every message rc-update can emit, one constructor per `eerror` /
`ewarn` / `einfo` / `eerrorx` / `ewarnx` / `usage` call site in
`rc-update.c`. -/
inductive Msg
  | errServiceNotExist (service : String)
  | warnAlreadyInstalled (service runlevel : String)
  | infoAdded (service runlevel : String)
  | errAddFailed (service runlevel : String)
  | infoRemoved (service runlevel : String)
  | errNotInRunlevel (service runlevel : String)
  | errRemoveFailed (service runlevel : String)
  | errCannotMix
  | errInvalidCommand (tok : String)
  | usageMsg
  | errNoService
  | errInvalidRunlevel (tok : String)
  | errInvalidAction
  | errNoRunlevels
  | errRunlevelNotExist (runlevel : String)
  | warnNotFoundInAny (service : String)
deriving DecidableEq

/-- Outcome of one per-runlevel action call (`add` or `delete` in
`rc-update.c`): the C return value (-1 error, 0 nothing to do, 1
updated), the messages printed, and the registry state afterwards. -/
structure ActRes where
  ret : Int
  msgs : List Msg
  state : Registry
deriving DecidableEq

/-- The `add` helper of `rc-update.c` (lines 54-72): error if the service
does not exist, warning no-op if it is already in the runlevel, otherwise
attempt the registry add-membership. -/
def add (st : Registry) (runlevel service : String) : ActRes :=
  if !(rc_service_exists st service) then
    ⟨-1, [Msg.errServiceNotExist service], st⟩
  else if rc_service_in_runlevel st service runlevel then
    ⟨0, [Msg.warnAlreadyInstalled service runlevel], st⟩
  else
    match rc_service_add st runlevel service with
    | some st1 => ⟨1, [Msg.infoAdded service runlevel], st1⟩
    | none => ⟨-1, [Msg.errAddFailed service runlevel], st⟩

/-- The `delete` helper of `rc-update.c` (lines 74-92): attempt the
registry remove-membership; on failure report `ENOENT` as "not in the
runlevel" and anything else as a generic removal failure. -/
def delete (st : Registry) (runlevel service : String) : ActRes :=
  match rc_service_delete st runlevel service with
  | DelResult.ok st1 => ⟨1, [Msg.infoRemoved service runlevel], st1⟩
  | DelResult.notAMember => ⟨-1, [Msg.errNotInRunlevel service runlevel], st⟩
  | DelResult.otherFail => ⟨-1, [Msg.errRemoveFailed service runlevel], st⟩

/-- Blank cell of the show table: `strlen (runlevel)` spaces
(lines 111-114 of `rc-update.c`). -/
def blank (runlevel : String) : String :=
  String.mk (List.replicate runlevel.length ' ')

/-- Inner loop of `show` (lines 106-116): for one service, the list of
cells over the requested runlevels together with the `inone` flag. -/
def showCells (st : Registry) (service : String) : List String → List String × Bool
  | [] => ([], false)
  | r :: rest =>
    let c := showCells st service rest
    if rc_service_in_runlevel st service r then (r :: c.1, true)
    else (blank r :: c.1, c.2)

/-- Outer loop of `show` (lines 102-126): one row per service, skipped
when the service is in none of the runlevels and verbose is off. -/
def showRows (st : Registry) (runlevels : List String) (verbose : Bool) :
    List String → List (String × List String)
  | [] => []
  | s :: rest =>
    let c := showCells st s runlevels
    if !c.2 && !verbose then showRows st runlevels verbose rest
    else (s, c.1) :: showRows st runlevels verbose rest

/-- The `show` function of `rc-update.c` (lines 94-129), returning the
table it prints as a list of (service, cells) rows. -/
def show' (st : Registry) (runlevels : List String) (verbose : Bool) :
    List (String × List String) :=
  showRows st runlevels verbose st.services

/-- The Report Renderer contract in the spec's own words (§4.4): every
known service, filtered to those with at least one membership unless
verbose; a member cell renders the runlevel's name and a non-member cell
a blank of equal width. -/
def showTable (st : Registry) (runlevels : List String) (verbose : Bool) :
    List (String × List String) :=
  st.services.filterMap (fun s =>
    if runlevels.any (fun r => rc_service_in_runlevel st s r) || verbose then
      some (s, runlevels.map (fun r =>
        if rc_service_in_runlevel st s r then r else blank r))
    else none)

/-- Command bit `DOADD` (1 << 1). -/
def DOADD : Nat := 2

/-- Command bit `DODELETE` (1 << 2). -/
def DODELETE : Nat := 4

/-- Command bit `DOSHOW` (1 << 3). -/
def DOSHOW : Nat := 8

/-- One occurrence of a mode option (short `-a` `-d` `-s`, or the long
forms add, delete, show) as delivered by `getopt_long`. -/
inductive Flag
  | a
  | d
  | s
deriving DecidableEq

/-- The bit OR-ed into `action` for one option (lines 168-176). -/
def flagBit : Flag → Nat
  | Flag.a => DOADD
  | Flag.d => DODELETE
  | Flag.s => DOSHOW

/-- The bit index of a mode flag (`DOADD` = 1 << 1 and so on). -/
def flagIdx : Flag → Nat
  | Flag.a => 1
  | Flag.d => 2
  | Flag.s => 3

/-- The `action` bitmask accumulated by the getopt loop
(lines 164-180). -/
def bitsOf (flags : List Flag) : Nat :=
  flags.foldl (fun acc f => acc ||| flagBit f) 0

/-- The mixed-commands test of lines 184-186: some command bit is set
while another one is too. -/
def conflicting (action : Nat) : Bool :=
  ((action &&& DOSHOW != 0) && (action != DOSHOW)) ||
  ((action &&& DOADD != 0) && (action != DOADD)) ||
  ((action &&& DODELETE != 0) && (action != DODELETE))

/-- Outcome of the backwards-compatibility block: either a fatal exit
(usage, or an invalid command token) or the resolved action with the
remaining positional arguments. -/
inductive LegacyRes
  | fatal (m : Msg)
  | ok (action : Nat) (args : List String)
deriving DecidableEq

/-- Lines 190-206 of `rc-update.c`: when no option set a command bit, the
first positional token may select the command and is then consumed;
an unrecognized token is a fatal invalid-command error and no token at
all prints usage and exits. -/
def resolveLegacy (action0 : Nat) (args : List String) : LegacyRes :=
  if action0 != 0 then LegacyRes.ok action0 args
  else
    match args with
    | [] => LegacyRes.fatal Msg.usageMsg
    | tok :: rest =>
      if tok == "add" then LegacyRes.ok DOADD rest
      else if tok == "delete" || tok == "del" then LegacyRes.ok DODELETE rest
      else if tok == "show" then LegacyRes.ok DOSHOW rest
      else LegacyRes.fatal (Msg.errInvalidCommand tok)

/-- The runlevel-collection loop of lines 215-221: arguments after the
service are collected in order as long as each names an existing
runlevel; the first one that does not is returned as the fatal error
token. -/
def collectRunlevels (st : Registry) : List String → Except String (List String)
  | [] => Except.ok []
  | r :: rest =>
    if rc_runlevel_exists st r then
      match collectRunlevels st rest with
      | Except.ok rls => Except.ok (r :: rls)
      | Except.error tok => Except.error tok
    else Except.error r

/-- Outcome of argument validation: a fatal exit or the optional service
name plus the validated runlevel list. -/
inductive ValRes
  | fatal (m : Msg)
  | ok (service : Option String) (runlevels : List String)
deriving DecidableEq

/-- Lines 208-222 of `rc-update.c`.  With no positional argument left the
source tests `! action & DOSHOW`, which C parses as `(!action) & DOSHOW`;
that is kept verbatim here (`action` is never 0 at this point, so the
branch is dead).  Otherwise the first positional argument becomes the
service and the rest are validated as runlevels. -/
def validateArgs (st : Registry) (action : Nat) : List String → ValRes
  | [] =>
    if (if action == 0 then 1 else 0) &&& DOSHOW != 0 then
      ValRes.fatal Msg.errNoService
    else ValRes.ok none []
  | s :: rest =>
    match collectRunlevels st rest with
    | Except.ok rls => ValRes.ok (some s) rls
    | Except.error tok => ValRes.fatal (Msg.errInvalidRunlevel tok)

/-- Aggregate of the mutation loop: messages, the running `retval` as a
success boolean, the registry state, and `num_updated`. -/
structure BatchRes where
  msgs : List Msg
  ok : Bool
  state : Registry
  updated : Int
deriving DecidableEq

/-- The mutation loop of lines 253-263: each runlevel is re-checked for
existence (a failure is a non-fatal per-runlevel error), then the action
function runs; a negative return marks the whole invocation failed and
the return value is accumulated into `num_updated`. -/
def runBatch (actfunc : Registry → String → String → ActRes) (service : String) :
    Registry → List String → BatchRes
  | st, [] => ⟨[], true, st, 0⟩
  | st, r :: rest =>
    if rc_runlevel_exists st r then
      let t := actfunc st r service
      let b := runBatch actfunc service t.state rest
      ⟨t.msgs ++ b.msgs, !(decide (t.ret < 0)) && b.ok, b.state, t.ret + b.updated⟩
    else
      let b := runBatch actfunc service st rest
      ⟨Msg.errRunlevelNotExist r :: b.msgs, b.ok, b.state, b.updated⟩

/-- Everything one invocation of rc-update produces: the messages
printed, the show table rows, the exit status (`exitOk` true = exit
status 0), the final registry state, and the final `num_updated`
counter. -/
structure RunResult where
  msgs : List Msg
  rows : List (String × List String)
  exitOk : Bool
  final : Registry
  updated : Int
deriving DecidableEq

/-- The `rc_update` entry point (lines 151-272), as a function of the
registry state, the verbose toggle (from the environment), the mode
options seen by getopt, and the positional arguments in order.  The
closing `ewarnx` summary is modelled from the spec ("informational, not
a failure", §4.3): it emits the warning and keeps the accumulated exit
status. -/
def rc_update (st : Registry) (verbose : Bool) (flags : List Flag)
    (args0 : List String) : RunResult :=
  let action0 := bitsOf flags
  if conflicting action0 then
    ⟨[Msg.errCannotMix], [], false, st, 0⟩
  else
    match resolveLegacy action0 args0 with
    | LegacyRes.fatal m => ⟨[m], [], false, st, 0⟩
    | LegacyRes.ok action args =>
      match validateArgs st action args with
      | ValRes.fatal m => ⟨[m], [], false, st, 0⟩
      | ValRes.ok service rls =>
        if action &&& DOSHOW != 0 then
          let rls1 := match service with
            | some s => rls ++ [s]
            | none => rls
          let rls2 := if rls1.isEmpty then st.runlevels else rls1
          ⟨[], show' st rls2 verbose, true, st, 0⟩
        else
          match service with
          | none => ⟨[Msg.errNoService], [], true, st, 0⟩
          | some s =>
            let actfunc? : Option (Registry → String → String → ActRes) :=
              if action &&& DOADD != 0 then some add
              else if action &&& DODELETE != 0 then some delete
              else none
            match actfunc? with
            | none => ⟨[Msg.errInvalidAction], [], false, st, 0⟩
            | some actfunc =>
              let rlsA := if rls.isEmpty then
                  match st.current with
                  | some c => [c]
                  | none => []
                else rls
              if rlsA.isEmpty then ⟨[Msg.errNoRunlevels], [], false, st, 0⟩
              else
                let b := runBatch actfunc s st rlsA
                let warn := b.ok && (b.updated == 0) && (action &&& DODELETE != 0)
                ⟨b.msgs ++ (if warn then [Msg.warnNotFoundInAny s] else []),
                 [], b.ok, b.state, b.updated⟩


/-- Service `sshd` in runlevel `default`, service `cron` in no runlevel;
runlevels `default` and `boot` exist and `default` is current. -/
def regA : Registry :=
  ⟨["sshd", "cron"], ["default", "boot"], [("default", "sshd")], some "default", [], []⟩

/-- Service `sshd` exists but is a member of no runlevel; runlevels
`default` and `boot` exist and `default` is current. -/
def regB : Registry :=
  ⟨["sshd"], ["default", "boot"], [], some "default", [], []⟩

/-- Service `sshd` exists, runlevel `default` exists, but the current
runlevel is `ghost`, which does not exist. -/
def regC : Registry :=
  ⟨["sshd"], ["default"], [], some "ghost", [], []⟩

theorem collectRunlevels_all_ok (st : Registry) (rls : List String)
    (h : ∀ r ∈ rls, rc_runlevel_exists st r = true) :
    collectRunlevels st rls = Except.ok rls := by
  induction rls with
  | nil => rfl
  | cons r rest ih =>
    simp only [collectRunlevels, h r (List.mem_cons_self r rest), if_true,
      ih (fun x hx => h x (List.mem_cons_of_mem r hx))]

theorem rc_update_show_eq (st : Registry) (v : Bool) (r1 : String) (rest : List String) :
    rc_update st v [Flag.s] (r1 :: rest) =
      (match collectRunlevels st rest with
      | Except.ok rls => ⟨[], show' st (rls ++ [r1]) v, true, st, 0⟩
      | Except.error tok => ⟨[Msg.errInvalidRunlevel tok], [], false, st, 0⟩) := by
  cases hc : collectRunlevels st rest <;>
    simp [rc_update, resolveLegacy, validateArgs, bitsOf, flagBit, conflicting,
          (show (8:Nat) &&& 8 = 8 from rfl), (show (8:Nat) &&& 2 = 0 from rfl),
          (show (8:Nat) &&& 4 = 0 from rfl), (show (2:Nat) &&& 8 = 0 from rfl),
          (show (2:Nat) &&& 2 = 2 from rfl), (show (2:Nat) &&& 4 = 0 from rfl),
          (show (4:Nat) &&& 8 = 0 from rfl), (show (4:Nat) &&& 2 = 0 from rfl),
          (show (4:Nat) &&& 4 = 4 from rfl), DOADD, DODELETE, DOSHOW, hc]

theorem rc_update_add_eq (st : Registry) (v : Bool) (S : String) (rls : List String) :
    rc_update st v [Flag.a] (S :: rls) =
      (match collectRunlevels st rls with
      | Except.ok rlsOK =>
        let rlsA := if rlsOK.isEmpty then
            (match st.current with | some c => [c] | none => []) else rlsOK
        if rlsA.isEmpty then ⟨[Msg.errNoRunlevels], [], false, st, 0⟩
        else
          let b := runBatch add S st rlsA
          ⟨b.msgs, [], b.ok, b.state, b.updated⟩
      | Except.error tok => ⟨[Msg.errInvalidRunlevel tok], [], false, st, 0⟩) := by
  cases hc : collectRunlevels st rls <;>
    simp [rc_update, resolveLegacy, validateArgs, bitsOf, flagBit, conflicting,
          (show (8:Nat) &&& 8 = 8 from rfl), (show (8:Nat) &&& 2 = 0 from rfl),
          (show (8:Nat) &&& 4 = 0 from rfl), (show (2:Nat) &&& 8 = 0 from rfl),
          (show (2:Nat) &&& 2 = 2 from rfl), (show (2:Nat) &&& 4 = 0 from rfl),
          (show (4:Nat) &&& 8 = 0 from rfl), (show (4:Nat) &&& 2 = 0 from rfl),
          (show (4:Nat) &&& 4 = 4 from rfl), DOADD, DODELETE, DOSHOW, hc]

theorem rc_update_delete_eq (st : Registry) (v : Bool) (S : String) (rls : List String) :
    rc_update st v [Flag.d] (S :: rls) =
      (match collectRunlevels st rls with
      | Except.ok rlsOK =>
        let rlsA := if rlsOK.isEmpty then
            (match st.current with | some c => [c] | none => []) else rlsOK
        if rlsA.isEmpty then ⟨[Msg.errNoRunlevels], [], false, st, 0⟩
        else
          let b := runBatch delete S st rlsA
          ⟨b.msgs ++ (if b.ok && (b.updated == 0) then [Msg.warnNotFoundInAny S] else []),
           [], b.ok, b.state, b.updated⟩
      | Except.error tok => ⟨[Msg.errInvalidRunlevel tok], [], false, st, 0⟩) := by
  cases hc : collectRunlevels st rls <;>
    simp [rc_update, resolveLegacy, validateArgs, bitsOf, flagBit, conflicting,
          (show (8:Nat) &&& 8 = 8 from rfl), (show (8:Nat) &&& 2 = 0 from rfl),
          (show (8:Nat) &&& 4 = 0 from rfl), (show (2:Nat) &&& 8 = 0 from rfl),
          (show (2:Nat) &&& 2 = 2 from rfl), (show (2:Nat) &&& 4 = 0 from rfl),
          (show (4:Nat) &&& 8 = 0 from rfl), (show (4:Nat) &&& 2 = 0 from rfl),
          (show (4:Nat) &&& 4 = 4 from rfl), DOADD, DODELETE, DOSHOW, hc]


theorem collectRunlevels_all_of_ok (st : Registry) (rls : List String) (l : List String)
    (h : collectRunlevels st rls = Except.ok l) :
    rls.all (rc_runlevel_exists st) = true := by
  induction rls generalizing l with
  | nil => rfl
  | cons r rest ih =>
    simp only [collectRunlevels] at h
    cases hr : rc_runlevel_exists st r with
    | false => rw [hr] at h; cases h
    | true =>
      rw [hr] at h
      simp only [if_true] at h
      cases hcr : collectRunlevels st rest with
      | ok l2 => simp [List.all_cons, hr, ih l2 hcr]
      | error tok => rw [hcr] at h; cases h

theorem collectRunlevels_all_of_error (st : Registry) (rls : List String) (tok : String)
    (h : collectRunlevels st rls = Except.error tok) :
    rls.all (rc_runlevel_exists st) = false := by
  induction rls generalizing tok with
  | nil => cases h
  | cons r rest ih =>
    simp only [collectRunlevels] at h
    cases hr : rc_runlevel_exists st r with
    | false => simp [List.all_cons, hr]
    | true =>
      rw [hr] at h
      simp only [if_true] at h
      cases hcr : collectRunlevels st rest with
      | ok l2 => rw [hcr] at h; cases h
      | error tok2 => simp [List.all_cons, hr, ih tok2 hcr]

theorem collectRunlevels_find (st : Registry) (rls : List String) (tok : String)
    (h : rls.find? (fun r => !(rc_runlevel_exists st r)) = some tok) :
    collectRunlevels st rls = Except.error tok := by
  induction rls with
  | nil => cases h
  | cons r rest ih =>
    cases hr : rc_runlevel_exists st r with
    | false =>
      rw [List.find?_cons_of_pos _ (by simp [hr])] at h
      cases h
      simp [collectRunlevels, hr]
    | true =>
      rw [List.find?_cons_of_neg _ (by simp [hr])] at h
      simp [collectRunlevels, hr, ih h]

theorem showCells_eq (st : Registry) (service : String) (rls : List String) :
    showCells st service rls =
      (rls.map (fun r => if rc_service_in_runlevel st service r then r else blank r),
       rls.any (fun r => rc_service_in_runlevel st service r)) := by
  induction rls with
  | nil => rfl
  | cons r rest ih =>
    simp only [showCells, ih, List.map_cons, List.any_cons]
    cases hm : rc_service_in_runlevel st service r <;> simp [hm]

theorem showRows_eq (st : Registry) (rls : List String) (v : Bool) (l : List String) :
    showRows st rls v l = l.filterMap (fun s =>
      if rls.any (fun r => rc_service_in_runlevel st s r) || v then
        some (s, rls.map (fun r => if rc_service_in_runlevel st s r then r else blank r))
      else none) := by
  induction l with
  | nil => rfl
  | cons s rest ih =>
    simp only [showRows, showCells_eq, ih, List.filterMap_cons]
    cases hin : rls.any (fun r => rc_service_in_runlevel st s r) <;> cases v <;> simp [hin]

theorem bitsOf_foldl (l : List Flag) (acc : Nat) :
    l.foldl (fun a f => a ||| flagBit f) acc = acc ||| bitsOf l := by
  induction l generalizing acc with
  | nil => simp [bitsOf]
  | cons f rest ih =>
    simp only [bitsOf, List.foldl_cons]
    rw [ih (acc ||| flagBit f), ih (0 ||| flagBit f), Nat.zero_or, Nat.or_assoc]

theorem bitsOf_cons (f : Flag) (l : List Flag) :
    bitsOf (f :: l) = flagBit f ||| bitsOf l := by
  simp only [bitsOf, List.foldl_cons]
  rw [bitsOf_foldl, Nat.zero_or]
  rfl

theorem flagBit_testBit (g f : Flag) : (flagBit g).testBit (flagIdx f) = (f == g) := by
  cases g <;> cases f <;> decide

theorem bitsOf_testBit (l : List Flag) (f : Flag) :
    (bitsOf l).testBit (flagIdx f) = l.contains f := by
  induction l with
  | nil => simp [bitsOf, Nat.zero_testBit]
  | cons g rest ih =>
    rw [bitsOf_cons, Nat.testBit_or, flagBit_testBit, ih, List.contains_cons]

theorem bitsOf_lt (l : List Flag) : bitsOf l < 16 := by
  induction l with
  | nil => decide
  | cons f rest ih =>
    rw [bitsOf_cons]
    have hf : flagBit f < 16 := by cases f <;> decide
    exact Nat.or_lt_two_pow (n := 4) hf ih

theorem conflicting_of_two_bits :
    ∀ n : Fin 16, ∀ i j : Fin 4, i ≠ j →
      (n : Nat).testBit (i : Nat) = true → (n : Nat).testBit (j : Nat) = true →
      conflicting (n : Nat) = true := by decide

theorem flagIdx_lt (f : Flag) : flagIdx f < 4 := by cases f <;> decide

theorem conflicting_of_testBits (n : Nat) (hn : n < 16) (f g : Flag) (hfg : f ≠ g)
    (hf : n.testBit (flagIdx f) = true) (hg : n.testBit (flagIdx g) = true) :
    conflicting n = true := by
  have hne : (⟨flagIdx f, flagIdx_lt f⟩ : Fin 4) ≠ ⟨flagIdx g, flagIdx_lt g⟩ := by
    cases f <;> cases g <;> first | exact absurd rfl hfg | decide
  exact conflicting_of_two_bits ⟨n, hn⟩ ⟨flagIdx f, flagIdx_lt f⟩
    ⟨flagIdx g, flagIdx_lt g⟩ hne hf hg

theorem runBatch_delete_not_member (st : Registry) (S : String) (rls : List String)
    (hex : ∀ r ∈ rls, rc_runlevel_exists st r = true)
    (hmem : ∀ r ∈ rls, rc_service_in_runlevel st S r = false) :
    runBatch delete S st rls =
      ⟨rls.map (fun r => Msg.errNotInRunlevel S r), rls.isEmpty, st,
       -(rls.length : Int)⟩ := by
  induction rls with
  | nil => rfl
  | cons r rest ih =>
    have hr := hex r (List.mem_cons_self r rest)
    have hm := hmem r (List.mem_cons_self r rest)
    have hd : delete st r S = ⟨-1, [Msg.errNotInRunlevel S r], st⟩ := by
      unfold delete rc_service_delete
      unfold rc_service_in_runlevel at hm
      have hm2 : (r, S) ∉ st.members := by simpa using hm
      simp [hm2]
    simp only [runBatch, hr, if_true, hd,
      ih (fun x hx => hex x (List.mem_cons_of_mem r hx))
         (fun x hx => hmem x (List.mem_cons_of_mem r hx))]
    simp only [BatchRes.mk.injEq, List.map_cons, List.singleton_append, List.isEmpty_cons,
      List.length_cons]
    refine ⟨by simp, by simp, trivial, by push_cast; ring⟩


/-- C1 (counterexample): deleting `sshd` from the existing runlevels
`default` and `boot`, of neither of which it is a member, exits with
failure status and does not emit the not-found-in-any-runlevel summary
warning, contrary to the claim. -/
theorem c1_counterexample :
    (rc_update regB false [Flag.d] ["sshd", "default", "boot"]).exitOk = false ∧
    Msg.warnNotFoundInAny "sshd" ∉
      (rc_update regB false [Flag.d] ["sshd", "default", "boot"]).msgs ∧
    rc_runlevel_exists regB "default" = true ∧ rc_runlevel_exists regB "boot" = true ∧
    rc_service_in_runlevel regB "sshd" "default" = false ∧
    rc_service_in_runlevel regB "sshd" "boot" = false := by decide

/-- C1 (amended): a Delete naming a service and a nonempty set of
existing runlevels in none of which the service is a member exits with
failure status, emits exactly one not-in-the-runlevel error per runlevel
and no summary warning, and mutates nothing (the final registry is the
initial one and `num_updated` is minus the number of runlevels). -/
theorem c1_delete_absent_everywhere (st : Registry) (v : Bool) (S : String)
    (rls : List String) (hne : rls ≠ [])
    (hex : ∀ r ∈ rls, rc_runlevel_exists st r = true)
    (hmem : ∀ r ∈ rls, rc_service_in_runlevel st S r = false) :
    rc_update st v [Flag.d] (S :: rls) =
      ⟨rls.map (fun r => Msg.errNotInRunlevel S r), [], false, st,
       -(rls.length : Int)⟩ := by
  rw [rc_update_delete_eq, collectRunlevels_all_ok st rls hex]
  have hie : rls.isEmpty = false := by
    cases rls with
    | nil => exact absurd rfl hne
    | cons a l => rfl
  simp only [hie, Bool.false_eq_true, if_false,
    runBatch_delete_not_member st S rls hex hmem]
  simp [hie]

/-- C1 (witness): the amended statement at a concrete registry. -/
theorem c1_witness :
    rc_update regB false [Flag.d] ["sshd", "default", "boot"] =
      ⟨[Msg.errNotInRunlevel "sshd" "default", Msg.errNotInRunlevel "sshd" "boot"],
       [], false, regB, -2⟩ :=
  (c1_delete_absent_everywhere regB false "sshd" ["default", "boot"]
    (by decide) (by decide) (by decide)).trans (by decide)

/-- C2 (code bug): an Add or Delete invocation with no service argument
prints the no-service-specified error and touches nothing, but exits
with status 0, because line 209 of `rc-update.c` tests
`! action & DOSHOW`, which is `(!action) & DOSHOW` and always 0, and the
later `eerror` call is non-fatal while `retval` keeps `EXIT_SUCCESS`. -/
theorem c2_missing_service_exits_zero :
    rc_update regA false [Flag.a] [] = ⟨[Msg.errNoService], [], true, regA, 0⟩ ∧
    rc_update regA false [Flag.d] [] = ⟨[Msg.errNoService], [], true, regA, 0⟩ ∧
    rc_update regA false [] ["add"] = ⟨[Msg.errNoService], [], true, regA, 0⟩ ∧
    rc_update regA false [] ["delete"] = ⟨[Msg.errNoService], [], true, regA, 0⟩ := by
  decide

/-- C3 (counterexample): a Show invocation whose single positional
argument names a nonexistent runlevel exits successfully with no error
message, so the first positional argument is not existence-checked. -/
theorem c3_counterexample :
    rc_runlevel_exists regA "bogus" = false ∧
    (rc_update regA false [Flag.s] ["bogus"]).exitOk = true ∧
    (rc_update regA false [Flag.s] ["bogus"]).msgs = [] := by decide

/-- C3 (amended): in a Show invocation every positional runlevel name
after the first is checked for existence and any nonexistent one fails
the invocation, while the first positional argument is used as a filter
without any existence check.  In full: the exit status equals the
conjunction of the existence checks of the later arguments, whatever the
first one names; when all later arguments exist the whole result is the
report rendered over them with the first argument appended as a filter
column; and when one does not, the whole result is the single
unknown-runlevel error naming the first offender, with failure status
and nothing rendered or mutated. -/
theorem c3_show_validates_all_but_first (st : Registry) (v : Bool) (r1 : String)
    (rest : List String) :
    (rc_update st v [Flag.s] (r1 :: rest)).exitOk = rest.all (rc_runlevel_exists st) ∧
    (rest.all (rc_runlevel_exists st) = true →
      rc_update st v [Flag.s] (r1 :: rest) =
        ⟨[], show' st (rest ++ [r1]) v, true, st, 0⟩) ∧
    (∀ tok, rest.find? (fun r => !(rc_runlevel_exists st r)) = some tok →
      rc_update st v [Flag.s] (r1 :: rest) =
        ⟨[Msg.errInvalidRunlevel tok], [], false, st, 0⟩) := by
  refine ⟨?_, ?_, ?_⟩
  · rw [rc_update_show_eq]
    cases hc : collectRunlevels st rest with
    | ok l => simp [collectRunlevels_all_of_ok st rest l hc]
    | error tok => simp [collectRunlevels_all_of_error st rest tok hc]
  · intro hall
    rw [rc_update_show_eq, collectRunlevels_all_ok st rest
      (by simpa [List.all_eq_true] using hall)]
  · intro tok h
    rw [rc_update_show_eq, collectRunlevels_find st rest tok h]

/-- C3 (witness): at a concrete registry, a Show whose first positional
argument is the nonexistent `bogus` renders the report filtered to
`boot` then `bogus` and exits 0, while a nonexistent second positional
argument fails the invocation with the unknown-runlevel error naming
it. -/
theorem c3_witness :
    rc_update regA false [Flag.s] ["bogus", "boot"] =
      ⟨[], show' regA (["boot"] ++ ["bogus"]) false, true, regA, 0⟩ ∧
    rc_update regA false [Flag.s] ["default", "bogus"] =
      ⟨[Msg.errInvalidRunlevel "bogus"], [], false, regA, 0⟩ :=
  ⟨(c3_show_validates_all_but_first regA false "bogus" ["boot"]).2.1 (by decide),
   (c3_show_validates_all_but_first regA false "default" ["bogus"]).2.2 "bogus" (by decide)⟩

/-- C4: invoking with the legacy positional token `add S R` produces
exactly the same result (messages, registry mutations, exit status) as
invoking with the add mode flag and positionals `S R`, in every registry
state and verbosity. -/
theorem c4_legacy_add_equiv (st : Registry) (v : Bool) (S R : String) :
    rc_update st v [Flag.a] [S, R] = rc_update st v [] ["add", S, R] := rfl

/-- C5: whenever two distinct mode flags are supplied, the invocation
fails immediately with the cannot-mix-commands error: no other message
is emitted, the exit status is nonzero and the registry is untouched. -/
theorem c5_conflicting_commands (st : Registry) (v : Bool) (flags : List Flag)
    (args : List String) (f g : Flag) (hfg : f ≠ g)
    (hf : flags.contains f = true) (hg : flags.contains g = true) :
    rc_update st v flags args = ⟨[Msg.errCannotMix], [], false, st, 0⟩ := by
  have hc : conflicting (bitsOf flags) = true :=
    conflicting_of_testBits (bitsOf flags) (bitsOf_lt flags) f g hfg
      (by rw [bitsOf_testBit]; exact hf) (by rw [bitsOf_testBit]; exact hg)
  simp only [rc_update, hc, if_true]

/-- C5 (witness): mixing the add and delete flags at a concrete
registry. -/
theorem c5_witness :
    rc_update regA false [Flag.a, Flag.d] ["sshd", "default"] =
      ⟨[Msg.errCannotMix], [], false, regA, 0⟩ :=
  c5_conflicting_commands regA false [Flag.a, Flag.d] ["sshd", "default"]
    Flag.a Flag.d (by decide) (by decide) (by decide)

/-- C6: an Add whose runlevel arguments contain a name the registry does
not know fails fatally at validation time with a single error naming the
first offending token, and mutates nothing. -/
theorem c6_unknown_runlevel_fatal (st : Registry) (v : Bool) (S tok : String)
    (rls : List String)
    (h : rls.find? (fun r => !(rc_runlevel_exists st r)) = some tok) :
    rc_update st v [Flag.a] (S :: rls) =
      ⟨[Msg.errInvalidRunlevel tok], [], false, st, 0⟩ ∧
    tok ∈ rls ∧ rc_runlevel_exists st tok = false := by
  refine ⟨?_, List.mem_of_find?_eq_some h, ?_⟩
  · rw [rc_update_add_eq, collectRunlevels_find st rls tok h]
  · simpa using List.find?_some h

/-- C6 (witness): adding with runlevel list containing `bogus` at a
concrete registry. -/
theorem c6_witness :
    rc_update regA false [Flag.a] ["sshd", "default", "bogus", "nope"] =
      ⟨[Msg.errInvalidRunlevel "bogus"], [], false, regA, 0⟩ ∧
    "bogus" ∈ ["default", "bogus", "nope"] ∧
    rc_runlevel_exists regA "bogus" = false :=
  c6_unknown_runlevel_fatal regA false "sshd" "bogus" ["default", "bogus", "nope"]
    (by decide)

/-- C7: adding an existing service to an existing runlevel it is already
a member of is a no-op: one already-installed warning, no registry
mutation, a zero success count, and exit status 0. -/
theorem c7_add_idempotent_noop (st : Registry) (v : Bool) (S R : String)
    (hs : rc_service_exists st S = true)
    (hm : rc_service_in_runlevel st S R = true)
    (hr : rc_runlevel_exists st R = true) :
    rc_update st v [Flag.a] [S, R] =
      ⟨[Msg.warnAlreadyInstalled S R], [], true, st, 0⟩ := by
  rw [rc_update_add_eq]
  rw [show collectRunlevels st [R] = Except.ok [R] by simp [collectRunlevels, hr]]
  have hadd : add st R S = ⟨0, [Msg.warnAlreadyInstalled S R], st⟩ := by
    unfold add
    simp [hs, hm]
  have hb : runBatch add S st [R] = ⟨[Msg.warnAlreadyInstalled S R], true, st, 0⟩ := by
    simp only [runBatch, hr, if_true, hadd]
    simp
  simp [hb]

/-- C7 (witness): re-adding `sshd` to `default` in a registry where it
is already installed there. -/
theorem c7_witness :
    rc_update regA false [Flag.a] ["sshd", "default"] =
      ⟨[Msg.warnAlreadyInstalled "sshd" "default"], [], true, regA, 0⟩ :=
  c7_add_idempotent_noop regA false "sshd" "default" (by decide) (by decide) (by decide)

/-- C8: the show report equals the spec's table: one row per known
service, kept exactly when some cell is a membership marker or verbose
is on; a member cell renders the runlevel's name and a non-member cell a
blank whose length equals the runlevel name's length. -/
theorem c8_show_renders_table (st : Registry) (rls : List String) (v : Bool) :
    show' st rls v = showTable st rls v ∧ ∀ r : String, (blank r).length = r.length := by
  refine ⟨?_, fun r => ?_⟩
  · unfold show' showTable
    exact showRows_eq st rls v st.services
  · rw [show (blank r).length = (List.replicate r.length ' ').length from rfl]
    simp

/-- C9: when every runlevel of an Add or Delete batch fails the
existence re-check at mutation time (reachable when the defaulted
current runlevel does not exist), each is skipped with a per-runlevel
error and the invocation still exits with status 0; for Delete the
not-found-in-any-runlevel summary warning is also emitted. -/
theorem c9_all_skipped_exits_zero (st : Registry) (v : Bool) (S c : String)
    (hcur : st.current = some c) (hne : rc_runlevel_exists st c = false) :
    rc_update st v [Flag.d] [S] =
      ⟨[Msg.errRunlevelNotExist c, Msg.warnNotFoundInAny S], [], true, st, 0⟩ ∧
    rc_update st v [Flag.a] [S] =
      ⟨[Msg.errRunlevelNotExist c], [], true, st, 0⟩ := by
  constructor
  · rw [rc_update_delete_eq,
      show collectRunlevels st ([] : List String) = Except.ok [] from rfl]
    simp [hcur, runBatch, hne]
  · rw [rc_update_add_eq,
      show collectRunlevels st ([] : List String) = Except.ok [] from rfl]
    simp [hcur, runBatch, hne]

/-- C9 (witness): the nonexistent current runlevel `ghost` at a concrete
registry. -/
theorem c9_witness :
    rc_update regC false [Flag.d] ["sshd"] =
      ⟨[Msg.errRunlevelNotExist "ghost", Msg.warnNotFoundInAny "sshd"], [], true, regC, 0⟩ ∧
    rc_update regC false [Flag.a] ["sshd"] =
      ⟨[Msg.errRunlevelNotExist "ghost"], [], true, regC, 0⟩ :=
  c9_all_skipped_exits_zero regC false "sshd" "ghost" (by decide) (by decide)

/-- C10: a Show invocation with two or more positional runlevel names
renders the report over the columns in the order second argument through
last argument and then the first argument appended at the end. -/
theorem c10_show_column_order (st : Registry) (v : Bool) (r1 : String)
    (rest : List String) (_hne : rest ≠ [])
    (hex : ∀ r ∈ rest, rc_runlevel_exists st r = true) :
    (rc_update st v [Flag.s] (r1 :: rest)).rows = show' st (rest ++ [r1]) v := by
  rw [rc_update_show_eq, collectRunlevels_all_ok st rest hex]

/-- C10 (witness): showing runlevels `default boot` renders the columns
in the order `boot default`. -/
theorem c10_witness :
    (rc_update regA true [Flag.s] ["default", "boot"]).rows =
      show' regA (["boot"] ++ ["default"]) true :=
  c10_show_column_order regA true "default" ["boot"] (by decide) (by decide)

end RC
